import Mathlib

/-!
Shallow embedding of `src/api/weather.js` (TRMNL2 weather handler).

Conventions of the embedding:
* JS numbers carrying measurements (temperatures in °F, wind speeds in mph)
  are modelled as rationals `ℚ`; `Math.round` is the Mathlib `round` (both are
  floor of `x + 1/2`).
* Epoch times are integers `ℤ` (seconds, or milliseconds where the code
  multiplies by 1000).  The handler runs on a UTC host, so the local `Date`
  getters (`getHours`, `getMinutes`) and `setMinutes(0,0,0)` are floor
  division / floor remainder on milliseconds; all our divisors are positive,
  where the Lean `Int` `/` and `%` (`ediv`/`emod`) agree with flooring.
* The two effects (reading the API key, the single upstream fetch together
  with JSON parsing and the in-`try` computation) are modelled by `Option`
  parameters: a missing/falsy key, and `none` for any fetch/parse/compute
  failure.  The returned `Bool` records whether the network call was made.
-/

/-- One record of the upstream `hourly` array (also the shape of `current`):
`{ dt, feels_like, wind_speed }`. -/
structure HourData where
  dt : ℤ
  feels_like : ℚ
  wind_speed : ℚ
deriving DecidableEq

/-- The parsed upstream payload: `{ current, hourly, timezone_offset }`. -/
structure WeatherData where
  current : HourData
  hourly : List HourData
  timezone_offset : ℤ
deriving DecidableEq

/-- `getTempScore` from the source: comfort score 1–5 for a feels-like
temperature in °F. -/
def getTempScore (temp : ℚ) : ℕ :=
  if 75 ≤ temp ∧ temp ≤ 85 then 5
  else if (70 ≤ temp ∧ temp < 75) ∨ (85 < temp ∧ temp ≤ 90) then 4
  else if (65 ≤ temp ∧ temp < 70) ∨ (90 < temp ∧ temp ≤ 95) then 3
  else if (60 ≤ temp ∧ temp < 65) ∨ (95 < temp ∧ temp ≤ 100) then 2
  else 1

/-- `getWindScore` from the source: comfort score for a wind-force class. -/
def getWindScore (windBFT : ℤ) : ℕ :=
  if windBFT < 3 then 5
  else if windBFT = 3 then 3
  else if windBFT = 4 then 2
  else 1

/-- `getOverallScore` from the source: `Math.min` of the two scores. -/
def getOverallScore (temp : ℚ) (windBFT : ℤ) : ℕ :=
  min (getTempScore temp) (getWindScore windBFT)

/-- `convertMphToBft` from the source: Beaufort-like class from mph, with the
uncapped `Math.round(mph / 5)` fallback for `mph ≥ 46`. -/
def convertMphToBft (mph : ℚ) : ℤ :=
  if mph < 1 then 0
  else if mph < 4 then 1
  else if mph < 8 then 2
  else if mph < 13 then 3
  else if mph < 18 then 4
  else if mph < 24 then 5
  else if mph < 31 then 6
  else if mph < 38 then 7
  else if mph < 46 then 8
  else round (mph / 5)

/-- JS `Date.prototype.getHours` on a UTC host, for a millisecond instant. -/
def dateGetHours (ms : ℤ) : ℤ :=
  ms / 3600000 % 24

/-- JS `Date.prototype.getMinutes` on a UTC host, for a millisecond instant. -/
def dateGetMinutes (ms : ℤ) : ℤ :=
  ms / 60000 % 60

/-- JS `date.setMinutes(0, 0, 0)` on a UTC host: truncate a millisecond
instant down to the start of its hour. -/
def setMinutesZero (ms : ℤ) : ℤ :=
  ms - ms % 3600000

/-- `data.hourly.slice(1, hoursToDisplay + 1)` with `hoursToDisplay = 3`. -/
def forecastSlice (hourly : List HourData) : List HourData :=
  (hourly.drop 1).take 3

/-- The `overallData` chart array built by the handler. -/
def overallData (data : WeatherData) : List (ℤ × ℕ) :=
  (setMinutesZero ((data.current.dt + data.timezone_offset) * 1000),
      getOverallScore data.current.feels_like (convertMphToBft data.current.wind_speed))
    :: (forecastSlice data.hourly).map (fun hourData =>
        ((hourData.dt + data.timezone_offset) * 1000,
          getOverallScore hourData.feels_like (convertMphToBft hourData.wind_speed)))

/-- The `windData` chart array built by the handler. -/
def windData (data : WeatherData) : List (ℤ × ℕ) :=
  (setMinutesZero ((data.current.dt + data.timezone_offset) * 1000),
      getWindScore (convertMphToBft data.current.wind_speed))
    :: (forecastSlice data.hourly).map (fun hourData =>
        ((hourData.dt + data.timezone_offset) * 1000,
          getWindScore (convertMphToBft hourData.wind_speed)))

/-- The `tempData` chart array built by the handler. -/
def tempData (data : WeatherData) : List (ℤ × ℕ) :=
  (setMinutesZero ((data.current.dt + data.timezone_offset) * 1000),
      getTempScore data.current.feels_like)
    :: (forecastSlice data.hourly).map (fun hourData =>
        ((hourData.dt + data.timezone_offset) * 1000,
          getTempScore hourData.feels_like))

/-- The calm-period `for` loop of the handler, over the remaining hours to
scan, carrying the mutable `calmCount` and `calmCandidate`.  Returns the
value of `calmStart` (`none` models the loop finishing with `calmStart`
still `null`). -/
def calmLoop (tz : ℤ) : List HourData → ℕ → Option HourData → Option ℤ
  | [], _, _ => none
  | hourData :: rest, calmCount, calmCandidate =>
    if convertMphToBft hourData.wind_speed < 3 then
      let cand := if calmCount = 0 then some hourData else calmCandidate
      if calmCount + 1 = 8 then
        match cand with
        | some c =>
          if 8 ≤ dateGetHours ((c.dt + tz) * 1000) ∧ dateGetHours ((c.dt + tz) * 1000) < 21 then
            some c.dt
          else
            calmLoop tz rest 0 none
        | none => none
      else
        calmLoop tz rest (calmCount + 1) cand
    else
      calmLoop tz rest 0 none

/-- The calm-period finder: the loop runs for `i < min(36, hourly.length)`
over `hourly[i]`, i.e. over the prefix `hourly.take (min 36 hourly.length)`. -/
def findCalm (tz : ℤ) (hourly : List HourData) : Option ℤ :=
  calmLoop tz (hourly.take (min 36 hourly.length)) 0 none

/-- The finder applied to the parsed payload, as in the handler. -/
def findCalmStart (data : WeatherData) : Option ℤ :=
  findCalm data.timezone_offset data.hourly

/-- `formatTime` from the source: 12-hour `H:MMam/pm` rendering of a
millisecond instant, using the UTC-host `Date` getters. -/
def formatTime (ms : ℤ) : String :=
  let hours := dateGetHours ms
  let minutes := dateGetMinutes ms
  let ampm := if 12 ≤ hours then "pm" else "am"
  let hours2 := hours % 12
  let hours3 := if hours2 = 0 then 12 else hours2
  let minutesStr := if minutes < 10 then "0" ++ toString minutes else toString minutes
  toString hours3 ++ ":" ++ minutesStr ++ ampm

/-- `calmPeriodText`: `"--"` when `calmStart` is `null`, else the formatted
shifted start instant. -/
def calmPeriodText (data : WeatherData) : String :=
  match findCalmStart data with
  | none => "--"
  | some calmStart => formatTime ((calmStart + data.timezone_offset) * 1000)

/-- The success-payload `output` object of the handler (`updated_at` is the
injected Central-Time clock string, see module docstring). -/
structure Payload where
  feels_like : ℤ
  wind_speed_mph : ℚ
  wind_speed_bft : ℤ
  overall_score : ℕ
  wind_score : ℕ
  temp_score : ℕ
  updated_at : String
  chart_overall : List (ℤ × ℕ)
  chart_wind : List (ℤ × ℕ)
  chart_temp : List (ℤ × ℕ)
  calm_period : String
deriving DecidableEq

/-- A response body: a JSON error object or the full payload. -/
inductive ResponseBody where
  | errorBody : String → ResponseBody
  | payloadBody : Payload → ResponseBody
deriving DecidableEq

/-- An HTTP response as produced by `res.status(...).json(...)`. -/
structure Response where
  status : ℕ
  body : ResponseBody
deriving DecidableEq

/-- The JS truthiness test `!apiKey` on the configured key (`none` models an
unset environment variable; the empty string is also falsy). -/
def keyMissing (apiKey : Option String) : Bool :=
  match apiKey with
  | none => true
  | some k => k == ""

/-- Assembly of the success `output` object from the parsed payload. -/
def buildOutput (data : WeatherData) (updatedAt : String) : Payload :=
  { feels_like := round data.current.feels_like
    wind_speed_mph := data.current.wind_speed
    wind_speed_bft := convertMphToBft data.current.wind_speed
    overall_score := getOverallScore data.current.feels_like (convertMphToBft data.current.wind_speed)
    wind_score := getWindScore (convertMphToBft data.current.wind_speed)
    temp_score := getTempScore data.current.feels_like
    updated_at := updatedAt
    chart_overall := overallData data
    chart_wind := windData data
    chart_temp := tempData data
    calm_period := calmPeriodText data }

/-- The whole handler.  `upstream` is the result of the fetch + JSON parse
(`none` for any failure inside the `try` block); the second component of the
result records whether the upstream fetch was attempted. -/
def handler (apiKey : Option String) (upstream : Option WeatherData)
    (updatedAt : String) : Response × Bool :=
  if keyMissing apiKey then
    ({ status := 500, body := ResponseBody.errorBody ("Missing API Key") }, false)
  else
    match upstream with
    | none =>
      ({ status := 500, body := ResponseBody.errorBody ("Failed to fetch weather data") }, true)
    | some data =>
      ({ status := 200, body := ResponseBody.payloadBody (buildOutput data updatedAt) }, true)

/-- `r` is the `dt` of an entry of `l` that starts 8 consecutive entries of
wind-force class < 3 and whose local wall-clock hour lies in `[8, 21)`. -/
def qualifyingRun (tz : ℤ) (l : List HourData) (r : ℤ) : Prop :=
  ∃ i : ℕ, i + 8 ≤ l.length ∧
    (∀ j : ℕ, j < 8 → ∃ h, l[i + j]? = some h ∧ convertMphToBft h.wind_speed < 3) ∧
    ∃ h0, l[i]? = some h0 ∧ r = h0.dt ∧
      8 ≤ dateGetHours ((h0.dt + tz) * 1000) ∧ dateGetHours ((h0.dt + tz) * 1000) < 21

/-- A sample forecast of 9 consecutive calm hours (wind 2 mph, class 1)
starting at local hour 22 with timezone offset 0. -/
def sampleCalmNine : List HourData :=
  [⟨79200, 80, 2⟩, ⟨82800, 80, 2⟩, ⟨86400, 80, 2⟩, ⟨90000, 80, 2⟩,
   ⟨93600, 80, 2⟩, ⟨97200, 80, 2⟩, ⟨100800, 80, 2⟩, ⟨104400, 80, 2⟩,
   ⟨108000, 80, 2⟩]

/-- A sample forecast of 8 consecutive calm hours starting at local hour 10
with timezone offset 0. -/
def sampleCalmEight : List HourData :=
  [⟨36000, 80, 2⟩, ⟨39600, 80, 2⟩, ⟨43200, 80, 2⟩, ⟨46800, 80, 2⟩,
   ⟨50400, 80, 2⟩, ⟨54000, 80, 2⟩, ⟨57600, 80, 2⟩, ⟨61200, 80, 2⟩]

/-- A sample payload: current observation at 10:01:40 local, four
hour-aligned ascending forecast hours from 10:00 local, timezone offset 0. -/
def sampleData : WeatherData :=
  ⟨⟨36100, 80, 2⟩,
   [⟨36000, 80, 2⟩, ⟨39600, 82, 5⟩, ⟨43200, 84, 9⟩, ⟨46800, 86, 14⟩], 0⟩

/-! ## Claim theorems -/

/-- C3: for every non-negative wind speed in mph, `convertMphToBft` returns
class 0 on `[0,1)`, 1 on `[1,4)`, 2 on `[4,8)`, 3 on `[8,13)`, 4 on
`[13,18)`, 5 on `[18,24)`, 6 on `[24,31)`, 7 on `[31,38)`, 8 on `[38,46)`;
for every speed `≥ 46` it returns `round (speed / 5)` with no upper cap, so
every such speed already yields a class greater than 8, and the classes are
unbounded above. -/
theorem convertMphToBft_spec :
    (∀ mph : ℚ, 0 ≤ mph →
      (mph < 1 → convertMphToBft mph = 0) ∧
      (1 ≤ mph → mph < 4 → convertMphToBft mph = 1) ∧
      (4 ≤ mph → mph < 8 → convertMphToBft mph = 2) ∧
      (8 ≤ mph → mph < 13 → convertMphToBft mph = 3) ∧
      (13 ≤ mph → mph < 18 → convertMphToBft mph = 4) ∧
      (18 ≤ mph → mph < 24 → convertMphToBft mph = 5) ∧
      (24 ≤ mph → mph < 31 → convertMphToBft mph = 6) ∧
      (31 ≤ mph → mph < 38 → convertMphToBft mph = 7) ∧
      (38 ≤ mph → mph < 46 → convertMphToBft mph = 8) ∧
      (46 ≤ mph → convertMphToBft mph = round (mph / 5)) ∧
      (46 ≤ mph → 8 < convertMphToBft mph)) ∧
    (∀ n : ℕ, ∃ mph : ℚ, 0 ≤ mph ∧ (n : ℤ) < convertMphToBft mph) := by
  have hfall : ∀ mph : ℚ, 46 ≤ mph → convertMphToBft mph = round (mph / 5) := by
    intro mph h
    unfold convertMphToBft
    rw [if_neg (by linarith), if_neg (by linarith), if_neg (by linarith),
      if_neg (by linarith), if_neg (by linarith), if_neg (by linarith),
      if_neg (by linarith), if_neg (by linarith), if_neg (by linarith)]
  have hbig : ∀ mph : ℚ, 46 ≤ mph → 8 < convertMphToBft mph := by
    intro mph h
    rw [hfall mph h, round_eq]
    have h9 : (9 : ℤ) ≤ ⌊mph / 5 + 1 / 2⌋ := by
      apply Int.le_floor.mpr
      push_cast
      linarith
    omega
  constructor
  · intro mph h0
    refine ⟨?_, ?_, ?_, ?_, ?_, ?_, ?_, ?_, ?_, hfall mph, hbig mph⟩
    · intro h; unfold convertMphToBft; rw [if_pos (by linarith)]
    · intro hl hr; unfold convertMphToBft
      rw [if_neg (by linarith), if_pos (by linarith)]
    · intro hl hr; unfold convertMphToBft
      rw [if_neg (by linarith), if_neg (by linarith), if_pos (by linarith)]
    · intro hl hr; unfold convertMphToBft
      rw [if_neg (by linarith), if_neg (by linarith), if_neg (by linarith),
        if_pos (by linarith)]
    · intro hl hr; unfold convertMphToBft
      rw [if_neg (by linarith), if_neg (by linarith), if_neg (by linarith),
        if_neg (by linarith), if_pos (by linarith)]
    · intro hl hr; unfold convertMphToBft
      rw [if_neg (by linarith), if_neg (by linarith), if_neg (by linarith),
        if_neg (by linarith), if_neg (by linarith), if_pos (by linarith)]
    · intro hl hr; unfold convertMphToBft
      rw [if_neg (by linarith), if_neg (by linarith), if_neg (by linarith),
        if_neg (by linarith), if_neg (by linarith), if_neg (by linarith),
        if_pos (by linarith)]
    · intro hl hr; unfold convertMphToBft
      rw [if_neg (by linarith), if_neg (by linarith), if_neg (by linarith),
        if_neg (by linarith), if_neg (by linarith), if_neg (by linarith),
        if_neg (by linarith), if_pos (by linarith)]
    · intro hl hr; unfold convertMphToBft
      rw [if_neg (by linarith), if_neg (by linarith), if_neg (by linarith),
        if_neg (by linarith), if_neg (by linarith), if_neg (by linarith),
        if_neg (by linarith), if_neg (by linarith), if_pos (by linarith)]
  · intro n
    refine ⟨5 * ((n : ℚ) + 10), by positivity, ?_⟩
    have hn : (0 : ℚ) ≤ (n : ℚ) := Nat.cast_nonneg n
    have h46 : (46 : ℚ) ≤ 5 * ((n : ℚ) + 10) := by linarith
    rw [hfall _ h46]
    have hdiv : 5 * ((n : ℚ) + 10) / 5 = ((n : ℤ) + 10 : ℤ) := by
      push_cast
      ring
    rw [hdiv, round_intCast]
    omega

/-- C3 witness: the theorem applied at the concrete speed 2 mph. -/
theorem convertMphToBft_spec_witness :
    (0 : ℚ) ≤ 2 ∧ convertMphToBft 2 = 1 :=
  ⟨by norm_num,
    (convertMphToBft_spec.1 2 (by norm_num)).2.1 (by norm_num) (by norm_num)⟩

/-- C4: `getTempScore` returns a value in `{1,…,5}` following the comfort
bands `5` on `[75,85]`, `4` on `[70,75) ∪ (85,90]`, `3` on `[65,70) ∪
(90,95]`, `2` on `[60,65) ∪ (95,100]`, `1` otherwise; together with the
five concrete sample values named by the claim. -/
theorem getTempScore_spec :
    (∀ t : ℚ,
      (75 ≤ t ∧ t ≤ 85 → getTempScore t = 5) ∧
      ((70 ≤ t ∧ t < 75) ∨ (85 < t ∧ t ≤ 90) → getTempScore t = 4) ∧
      ((65 ≤ t ∧ t < 70) ∨ (90 < t ∧ t ≤ 95) → getTempScore t = 3) ∧
      ((60 ≤ t ∧ t < 65) ∨ (95 < t ∧ t ≤ 100) → getTempScore t = 2) ∧
      (t < 60 ∨ 100 < t → getTempScore t = 1) ∧
      1 ≤ getTempScore t ∧ getTempScore t ≤ 5) ∧
    getTempScore 75 = 5 ∧ getTempScore 69.9 = 3 ∧ getTempScore 100.1 = 1 ∧
    getTempScore 60 = 2 ∧ getTempScore 59.9 = 1 := by
  constructor
  · intro t
    refine ⟨?_, ?_, ?_, ?_, ?_, ?_⟩
    · intro h
      unfold getTempScore
      rw [if_pos h]
    · intro h
      have hn1 : ¬(75 ≤ t ∧ t ≤ 85) := by
        rcases h with ⟨ha, hb⟩ | ⟨ha, hb⟩ <;> rintro ⟨c1, c2⟩ <;> linarith
      unfold getTempScore
      rw [if_neg hn1, if_pos h]
    · intro h
      have hn1 : ¬(75 ≤ t ∧ t ≤ 85) := by
        rcases h with ⟨ha, hb⟩ | ⟨ha, hb⟩ <;> rintro ⟨c1, c2⟩ <;> linarith
      have hn2 : ¬((70 ≤ t ∧ t < 75) ∨ (85 < t ∧ t ≤ 90)) := by
        rcases h with ⟨ha, hb⟩ | ⟨ha, hb⟩ <;> rintro (⟨c1, c2⟩ | ⟨c1, c2⟩) <;> linarith
      unfold getTempScore
      rw [if_neg hn1, if_neg hn2, if_pos h]
    · intro h
      have hn1 : ¬(75 ≤ t ∧ t ≤ 85) := by
        rcases h with ⟨ha, hb⟩ | ⟨ha, hb⟩ <;> rintro ⟨c1, c2⟩ <;> linarith
      have hn2 : ¬((70 ≤ t ∧ t < 75) ∨ (85 < t ∧ t ≤ 90)) := by
        rcases h with ⟨ha, hb⟩ | ⟨ha, hb⟩ <;> rintro (⟨c1, c2⟩ | ⟨c1, c2⟩) <;> linarith
      have hn3 : ¬((65 ≤ t ∧ t < 70) ∨ (90 < t ∧ t ≤ 95)) := by
        rcases h with ⟨ha, hb⟩ | ⟨ha, hb⟩ <;> rintro (⟨c1, c2⟩ | ⟨c1, c2⟩) <;> linarith
      unfold getTempScore
      rw [if_neg hn1, if_neg hn2, if_neg hn3, if_pos h]
    · intro h
      have hn1 : ¬(75 ≤ t ∧ t ≤ 85) := by
        rcases h with h | h <;> rintro ⟨c1, c2⟩ <;> linarith
      have hn2 : ¬((70 ≤ t ∧ t < 75) ∨ (85 < t ∧ t ≤ 90)) := by
        rcases h with h | h <;> rintro (⟨c1, c2⟩ | ⟨c1, c2⟩) <;> linarith
      have hn3 : ¬((65 ≤ t ∧ t < 70) ∨ (90 < t ∧ t ≤ 95)) := by
        rcases h with h | h <;> rintro (⟨c1, c2⟩ | ⟨c1, c2⟩) <;> linarith
      have hn4 : ¬((60 ≤ t ∧ t < 65) ∨ (95 < t ∧ t ≤ 100)) := by
        rcases h with h | h <;> rintro (⟨c1, c2⟩ | ⟨c1, c2⟩) <;> linarith
      unfold getTempScore
      rw [if_neg hn1, if_neg hn2, if_neg hn3, if_neg hn4]
    · unfold getTempScore
      split_ifs <;> omega
  · refine ⟨by norm_num [getTempScore], by norm_num [getTempScore],
      by norm_num [getTempScore], by norm_num [getTempScore],
      by norm_num [getTempScore]⟩

/-- C4 witness: the band clauses applied at the concrete temperature 72 °F. -/
theorem getTempScore_spec_witness : getTempScore 72 = 4 :=
  (getTempScore_spec.1 72).2.1 (Or.inl ⟨by norm_num, by norm_num⟩)

/-- C5: `getWindScore` returns 5 for classes below 3, 3 for class 3, 2 for
class 4 and 1 above 4, and never returns 4. -/
theorem getWindScore_spec :
    (∀ c : ℤ,
      (c < 3 → getWindScore c = 5) ∧
      (c = 3 → getWindScore c = 3) ∧
      (c = 4 → getWindScore c = 2) ∧
      (4 < c → getWindScore c = 1) ∧
      getWindScore c ≠ 4) ∧
    getWindScore 2 = 5 ∧ getWindScore 3 = 3 ∧ getWindScore 4 = 2 ∧
    getWindScore 5 = 1 := by
  constructor
  · intro c
    unfold getWindScore
    split_ifs <;> refine ⟨?_, ?_, ?_, ?_, by omega⟩ <;> intro h <;> omega
  · refine ⟨by decide, by decide, by decide, by decide⟩

/-- C5 witness: the clauses applied at the concrete class 7. -/
theorem getWindScore_spec_witness : getWindScore 7 = 1 :=
  (getWindScore_spec.1 7).2.2.2.1 (by norm_num)

/-! ## Helpers for the chart-series and formatting claims -/

/-- Zipping two mapped copies of a list with `min` maps the pointwise `min`. -/
theorem zipWith_min_map {α : Type} (l : List α) (f g : α → ℕ) :
    List.zipWith min (l.map f) (l.map g) = l.map (fun x => min (f x) (g x)) := by
  induction l with
  | nil => rfl
  | cons a l ih => simp [ih]

/-- The pointwise `min` of two mapped copies is pointwise below the first. -/
theorem forall2_min_le_map (l : List α) (f g : α → ℕ) :
    List.Forall₂ (fun a b => a ≤ b) (l.map fun x => min (f x) (g x)) (l.map f) := by
  induction l with
  | nil => exact List.Forall₂.nil
  | cons a l ih => exact List.Forall₂.cons (min_le_left _ _) ih

/-- The pointwise `min` of two mapped copies is pointwise below the second. -/
theorem forall2_min_le_map_right (l : List α) (f g : α → ℕ) :
    List.Forall₂ (fun a b => a ≤ b) (l.map fun x => min (f x) (g x)) (l.map g) := by
  induction l with
  | nil => exact List.Forall₂.nil
  | cons a l ih => exact List.Forall₂.cons (min_le_right _ _) ih

/-- Every `formatTime` output has at least three characters. -/
theorem formatTime_length (ms : ℤ) : 3 ≤ (formatTime ms).length := by
  have hc : (":").length = 1 := rfl
  have hpm : ("pm").length = 2 := rfl
  have ham : ("am").length = 2 := rfl
  simp only [formatTime]
  split_ifs <;> simp only [String.length_append, hc, hpm, ham] <;> omega

/-- `formatTime` never renders the no-window sentinel `"--"`. -/
theorem formatTime_ne_dashes (ms : ℤ) : formatTime ms ≠ ("--") := by
  intro h
  have h3 := formatTime_length ms
  rw [h] at h3
  have h2 : ("--").length = 2 := rfl
  omega

/-- C6: the overall score is `min` of the temperature and wind scores, both
for the current-conditions fields of the payload and pointwise at every
point of the chart series (the series share their timestamps), so the
overall series never exceeds either component series. -/
theorem overallMin_spec (data : WeatherData) :
    (∀ (t : ℚ) (c : ℤ), getOverallScore t c = min (getTempScore t) (getWindScore c)) ∧
    (overallData data).map Prod.snd =
      List.zipWith min ((tempData data).map Prod.snd) ((windData data).map Prod.snd) ∧
    (overallData data).map Prod.fst = (tempData data).map Prod.fst ∧
    (overallData data).map Prod.fst = (windData data).map Prod.fst ∧
    List.Forall₂ (fun a b => a ≤ b)
      ((overallData data).map Prod.snd) ((tempData data).map Prod.snd) ∧
    List.Forall₂ (fun a b => a ≤ b)
      ((overallData data).map Prod.snd) ((windData data).map Prod.snd) ∧
    (∀ u : String, (buildOutput data u).overall_score =
      min (buildOutput data u).temp_score (buildOutput data u).wind_score) := by
  refine ⟨fun t c => rfl, ?_, ?_, ?_, ?_, ?_, fun u => rfl⟩
  · simp [overallData, tempData, windData, List.map_map, Function.comp,
      zipWith_min_map, getOverallScore]
  · simp [overallData, tempData, List.map_map, Function.comp]
  · simp [overallData, windData, List.map_map, Function.comp]
  · simp only [overallData, tempData, List.map_cons, List.map_map, Function.comp]
    exact List.Forall₂.cons (min_le_left _ _)
      (forall2_min_le_map (forecastSlice data.hourly)
        (fun h => getTempScore h.feels_like)
        (fun h => getWindScore (convertMphToBft h.wind_speed)))
  · simp only [overallData, windData, List.map_cons, List.map_map, Function.comp]
    exact List.Forall₂.cons (min_le_right _ _)
      (forall2_min_le_map_right (forecastSlice data.hourly)
        (fun h => getTempScore h.feels_like)
        (fun h => getWindScore (convertMphToBft h.wind_speed)))

/-- C7: the response field `calm_period` is `"--"` exactly when the finder yields
no window; otherwise it is the `formatTime` rendering of the window start
epoch second shifted by `timezone_offset`; `formatTime` renders hour 0 as 12
and zero-pads the minutes (concrete renderings included). -/
theorem calmPeriodText_spec (data : WeatherData) :
    (∀ u : String, (buildOutput data u).calm_period = calmPeriodText data) ∧
    (calmPeriodText data = ("--") ↔ findCalmStart data = none) ∧
    (∀ s : ℤ, findCalmStart data = some s →
      calmPeriodText data = formatTime ((s + data.timezone_offset) * 1000)) ∧
    formatTime 0 = ("12:00am") ∧
    formatTime ((13 * 3600 + 5 * 60) * 1000) = ("1:05pm") := by
  refine ⟨fun u => rfl, ⟨?_, ?_⟩, ?_, by decide, by decide⟩
  · intro hd
    cases h : findCalmStart data with
    | none => rfl
    | some s =>
      exfalso
      unfold calmPeriodText at hd
      rw [h] at hd
      exact formatTime_ne_dashes _ hd
  · intro h
    unfold calmPeriodText
    rw [h]
  · intro s hs
    unfold calmPeriodText
    rw [hs]

/-- C7 witness: the theorem applied at a concrete payload whose finder scan
fails (a single windy hour), so `calm_period` is `"--"`. -/
theorem calmPeriodText_spec_witness :
    calmPeriodText ⟨⟨0, 80, 20⟩, [⟨0, 80, 20⟩], 0⟩ = ("--") :=
  (calmPeriodText_spec ⟨⟨0, 80, 20⟩, [⟨0, 80, 20⟩], 0⟩).2.1.2 (by decide)

/-- C8: with the API key absent the handler returns status 500 with body
`{ error: "Missing API Key" }` and the upstream fetch is never attempted
(second component `false`), whatever the upstream would have answered; the
falsy empty-string key behaves the same way. -/
theorem missingKey_spec (upstream : Option WeatherData) (updatedAt : String) :
    handler none upstream updatedAt =
      ({ status := 500, body := ResponseBody.errorBody ("Missing API Key") }, false) ∧
    handler (some ("")) upstream updatedAt =
      ({ status := 500, body := ResponseBody.errorBody ("Missing API Key") }, false) := by
  constructor <;> rfl

/-- C9: with a configured key, any failure of the fetch/parse/compute block
produces status 500 with body `{ error: "Failed to fetch weather data" }`;
and in all cases the response is either the full 200 payload or a 500 with
one of the two generic error bodies — never a partial result. -/
theorem fetchFailure_spec (apiKey : Option String) (upstream : Option WeatherData)
    (updatedAt : String) :
    (keyMissing apiKey = false → upstream = none →
      handler apiKey upstream updatedAt =
        ({ status := 500, body := ResponseBody.errorBody ("Failed to fetch weather data") },
          true)) ∧
    ((∃ d : WeatherData, upstream = some d ∧
        handler apiKey upstream updatedAt =
          ({ status := 200, body := ResponseBody.payloadBody (buildOutput d updatedAt) },
            true)) ∨
      ((handler apiKey upstream updatedAt).1.status = 500 ∧
        ((handler apiKey upstream updatedAt).1.body =
            ResponseBody.errorBody ("Missing API Key") ∨
          (handler apiKey upstream updatedAt).1.body =
            ResponseBody.errorBody ("Failed to fetch weather data")))) := by
  constructor
  · intro hk hu
    subst hu
    simp [handler, hk]
  · cases hk : keyMissing apiKey
    · cases upstream with
      | none => right; simp [handler, hk]
      | some d => left; exact ⟨d, rfl, by simp [handler, hk]⟩
    · right; simp [handler, hk]

/-- C9 witness: the theorem applied with a concrete present key and a failed
fetch. -/
theorem fetchFailure_spec_witness :
    handler (some ("k")) none ("now") =
      ({ status := 500, body := ResponseBody.errorBody ("Failed to fetch weather data") },
        true) :=
  (fetchFailure_spec (some ("k")) none ("now")).1 rfl rfl

/-! ## Helpers for the calm-period claims -/

/-- The scan prefix `hourly.take (min 36 hourly.length)` is `hourly.take 36`. -/
theorem findCalm_eq_take36 (tz : ℤ) (hourly : List HourData) :
    findCalm tz hourly = calmLoop tz (hourly.take 36) 0 none := by
  unfold findCalm
  congr 1
  rw [List.take_eq_take]
  omega

/-- Index shifting through an appended prefix and one consumed element. -/
theorem getElem?_append_cons {α : Type} (l₁ l₂ : List α) (x : α) (n : ℕ) :
    (l₁ ++ x :: l₂)[l₁.length + 1 + n]? = l₂[n]? := by
  have harith : l₁.length + 1 + n - l₁.length = n + 1 := by omega
  rw [List.getElem?_append_right (by omega), harith, List.getElem?_cons_succ]

/-- A qualifying run found in the tail is a qualifying run of the whole. -/
theorem qualifyingRun_shift (tz : ℤ) (pend : List HourData) (x : HourData)
    (rest : List HourData) (r : ℤ) (H : qualifyingRun tz rest r) :
    qualifyingRun tz (pend ++ x :: rest) r := by
  obtain ⟨i, hle, hall, h0, hh0, hr, hw1, hw2⟩ := H
  refine ⟨pend.length + 1 + i, ?_, ?_, h0, ?_, hr, hw1, hw2⟩
  · simp only [List.length_append, List.length_cons]
    omega
  · intro j hj
    obtain ⟨h, hh, hhc⟩ := hall j hj
    refine ⟨h, ?_, hhc⟩
    have harith : pend.length + 1 + i + j = pend.length + 1 + (i + j) := by omega
    rw [harith, getElem?_append_cons]
    exact hh
  · rw [getElem?_append_cons]
    exact hh0

/-- Soundness of the calm loop: whenever it reports a start `r`, the list
consisting of the pending calm entries followed by the unscanned entries
contains a qualifying run starting exactly at `r`. -/
theorem calmLoop_sound (tz : ℤ) :
    ∀ (l pend : List HourData) (calmCount : ℕ) (cand : Option HourData) (r : ℤ),
      pend.length = calmCount →
      (∀ h ∈ pend, convertMphToBft h.wind_speed < 3) →
      (∀ c, cand = some c → pend.head? = some c) →
      calmLoop tz l calmCount cand = some r →
      qualifyingRun tz (pend ++ l) r := by
  intro l
  induction l with
  | nil =>
    intro pend calmCount cand r _ _ _ hrun
    simp [calmLoop] at hrun
  | cons hd rest ih =>
    intro pend calmCount cand r hlen hcalm hcand hrun
    rw [calmLoop] at hrun
    by_cases hc : convertMphToBft hd.wind_speed < 3
    · rw [if_pos hc] at hrun
      simp only [] at hrun
      by_cases h8 : calmCount + 1 = 8
      · rw [if_pos h8] at hrun
        have h0ne : ¬ calmCount = 0 := by omega
        rw [if_neg h0ne] at hrun
        cases hcv : cand with
        | none =>
          rw [hcv] at hrun
          simp at hrun
        | some c =>
          rw [hcv] at hrun
          dsimp only at hrun
          have hhead := hcand c hcv
          by_cases hw : 8 ≤ dateGetHours ((c.dt + tz) * 1000) ∧
              dateGetHours ((c.dt + tz) * 1000) < 21
          · rw [if_pos hw] at hrun
            have hr : r = c.dt := by
              have := hrun
              injection this with h
              exact h.symm
            have hplen : pend.length = 7 := by omega
            refine ⟨0, ?_, ?_, c, ?_, hr, hw.1, hw.2⟩
            · simp only [List.length_append, List.length_cons]
              omega
            · intro j hj
              by_cases hj7 : j < 7
              · have hjp : j < pend.length := by omega
                refine ⟨pend[j], ?_, hcalm _ (List.getElem_mem hjp)⟩
                rw [List.getElem?_append]
                rw [if_pos (by omega)]
                simp only [Nat.zero_add]
                exact List.getElem?_eq_getElem hjp
              · have hj7' : j = 7 := by omega
                subst hj7'
                refine ⟨hd, ?_, hc⟩
                rw [List.getElem?_append]
                rw [if_neg (by omega)]
                have harith : 0 + 7 - pend.length = 0 := by omega
                rw [harith]
                simp
            · rw [List.getElem?_append]
              rw [if_pos (by omega)]
              rw [← List.head?_eq_getElem?]
              exact hhead
          · rw [if_neg hw] at hrun
            have H := ih [] 0 none r rfl (by simp) (by simp) hrun
            simp only [List.nil_append] at H
            exact qualifyingRun_shift tz pend hd rest r H
      · rw [if_neg h8] at hrun
        have hlen' : (pend ++ [hd]).length = calmCount + 1 := by
          simp [hlen]
        have hcalm' : ∀ h ∈ pend ++ [hd], convertMphToBft h.wind_speed < 3 := by
          intro h hh
          rcases List.mem_append.mp hh with hh | hh
          · exact hcalm h hh
          · rcases List.mem_singleton.mp hh with rfl
            exact hc
        have hcand' : ∀ c, (if calmCount = 0 then some hd else cand) = some c →
            (pend ++ [hd]).head? = some c := by
          intro c hcv
          by_cases h0 : calmCount = 0
          · rw [if_pos h0] at hcv
            have hpnil : pend = [] := List.length_eq_zero.mp (by omega)
            subst hpnil
            simpa using hcv
          · rw [if_neg h0] at hcv
            have := hcand c hcv
            have hpne : pend ≠ [] := by
              intro hnil
              subst hnil
              simp at hlen
              omega
            cases pend with
            | nil => exact absurd rfl hpne
            | cons p ps => simpa using this
        have H := ih (pend ++ [hd]) (calmCount + 1) _ r hlen' hcalm' hcand' hrun
        rw [List.append_assoc, List.singleton_append] at H
        exact H
    · rw [if_neg hc] at hrun
      have H := ih [] 0 none r rfl (by simp) (by simp) hrun
      simp only [List.nil_append] at H
      exact qualifyingRun_shift tz pend hd rest r H

/-- Soundness of the finder on the original hourly list: a reported start is
the `dt` of an entry within the first `min 36 hourly.length` hours that
begins 8 consecutive calm entries and whose local hour is in `[8, 21)`. -/
theorem findCalm_sound (tz : ℤ) (hourly : List HourData) (r : ℤ)
    (hrun : findCalm tz hourly = some r) :
    ∃ i : ℕ, i + 8 ≤ min 36 hourly.length ∧
      (∀ j : ℕ, j < 8 → ∃ h, hourly[i + j]? = some h ∧
        convertMphToBft h.wind_speed < 3) ∧
      ∃ h0, hourly[i]? = some h0 ∧ r = h0.dt ∧
        8 ≤ dateGetHours ((h0.dt + tz) * 1000) ∧
        dateGetHours ((h0.dt + tz) * 1000) < 21 := by
  rw [findCalm_eq_take36] at hrun
  have H := calmLoop_sound tz (hourly.take 36) [] 0 none r rfl (by simp) (by simp) hrun
  simp only [List.nil_append] at H
  obtain ⟨i, hle, hall, h0, hh0, hr, hw1, hw2⟩ := H
  rw [List.length_take] at hle
  refine ⟨i, hle, ?_, h0, ?_, hr, hw1, hw2⟩
  · intro j hj
    obtain ⟨h, hh, hhc⟩ := hall j hj
    rw [List.getElem?_take, if_pos (by omega)] at hh
    exact ⟨h, hh, hhc⟩
  · rw [List.getElem?_take, if_pos (by omega)] at hh0
    exact hh0

/-- If the first 8 entries are calm and the local hour of the first entry is in
the window, the loop started from the initial state succeeds immediately
with the `dt` of the first entry. -/
theorem calmLoop_head_success (tz : ℤ) (l : List HourData)
    (h8 : 8 ≤ l.length)
    (hcalm : ∀ j : ℕ, j < 8 → ∀ h, l[j]? = some h → convertMphToBft h.wind_speed < 3)
    (a : HourData) (ha : l.head? = some a)
    (hw1 : 8 ≤ dateGetHours ((a.dt + tz) * 1000))
    (hw2 : dateGetHours ((a.dt + tz) * 1000) < 21) :
    calmLoop tz l 0 none = some a.dt := by
  rcases l with _ | ⟨a0, l⟩
  · simp at h8
  rcases l with _ | ⟨a1, l⟩
  · simp at h8
  rcases l with _ | ⟨a2, l⟩
  · simp at h8
  rcases l with _ | ⟨a3, l⟩
  · simp at h8
  rcases l with _ | ⟨a4, l⟩
  · simp at h8
  rcases l with _ | ⟨a5, l⟩
  · simp at h8
  rcases l with _ | ⟨a6, l⟩
  · simp at h8
  rcases l with _ | ⟨a7, l⟩
  · simp at h8
  have ha0 : a = a0 := by
    rw [List.head?] at ha
    injection ha with h
    exact h.symm
  subst ha0
  have c0 := hcalm 0 (by omega) a (by simp)
  have c1 := hcalm 1 (by omega) a1 (by simp)
  have c2 := hcalm 2 (by omega) a2 (by simp)
  have c3 := hcalm 3 (by omega) a3 (by simp)
  have c4 := hcalm 4 (by omega) a4 (by simp)
  have c5 := hcalm 5 (by omega) a5 (by simp)
  have c6 := hcalm 6 (by omega) a6 (by simp)
  have c7 := hcalm 7 (by omega) a7 (by simp)
  simp [calmLoop, c0, c1, c2, c3, c4, c5, c6, c7, hw1, hw2]

/-- The full-reset policy: given 9 consecutive calm hours whose first hour
is outside the `[8, 21)` window, the finder reports nothing at all — the
failed 8-hour run is discarded entirely, and no window starting at its
second hour is ever considered. -/
theorem calmLoop_reset_nine (tz : ℤ) (l : List HourData)
    (hlen : l.length = 9)
    (hcalm : ∀ h ∈ l, convertMphToBft h.wind_speed < 3)
    (hhead : ∀ h0, l.head? = some h0 →
      ¬(8 ≤ dateGetHours ((h0.dt + tz) * 1000) ∧
        dateGetHours ((h0.dt + tz) * 1000) < 21)) :
    findCalm tz l = none := by
  rcases l with _ | ⟨a0, l⟩
  · simp at hlen
  rcases l with _ | ⟨a1, l⟩
  · simp at hlen
  rcases l with _ | ⟨a2, l⟩
  · simp at hlen
  rcases l with _ | ⟨a3, l⟩
  · simp at hlen
  rcases l with _ | ⟨a4, l⟩
  · simp at hlen
  rcases l with _ | ⟨a5, l⟩
  · simp at hlen
  rcases l with _ | ⟨a6, l⟩
  · simp at hlen
  rcases l with _ | ⟨a7, l⟩
  · simp at hlen
  rcases l with _ | ⟨a8, l⟩
  · simp at hlen
  have hnil : l = [] := by
    simp only [List.length_cons] at hlen
    exact List.length_eq_zero.mp (by omega)
  subst hnil
  have c0 := hcalm a0 (by simp)
  have c1 := hcalm a1 (by simp)
  have c2 := hcalm a2 (by simp)
  have c3 := hcalm a3 (by simp)
  have c4 := hcalm a4 (by simp)
  have c5 := hcalm a5 (by simp)
  have c6 := hcalm a6 (by simp)
  have c7 := hcalm a7 (by simp)
  have c8 := hcalm a8 (by simp)
  have hw := hhead a0 rfl
  rw [findCalm_eq_take36]
  have htake : List.take 36 [a0, a1, a2, a3, a4, a5, a6, a7, a8] =
      [a0, a1, a2, a3, a4, a5, a6, a7, a8] :=
    List.take_of_length_le (by simp)
  rw [htake]
  simp [calmLoop, c0, c1, c2, c3, c4, c5, c6, c7, c8, hw]

/-- C1: the calm-period finder depends only on the first
`min(36, hourly.length)` entries; any start it reports is the `dt` of the
first entry of a run of 8 consecutive entries of wind-force class < 3 whose
whose first entry has local wall-clock hour in `[8, 21)` — in particular a run
starting at local hour 22 is never reported; on window failure the whole
run is discarded (9 calm hours whose first hour is outside the window yield
nothing — the scan never restarts from the second hour of the run); and when the
horizon holds no qualifying window the finder reports `none`. -/
theorem calmFinder_spec (tz : ℤ) (hourly : List HourData) :
    (∀ l2 : List HourData, hourly.take 36 = l2.take 36 →
      findCalm tz hourly = findCalm tz l2) ∧
    (∀ r : ℤ, findCalm tz hourly = some r →
      ∃ i : ℕ, i + 8 ≤ min 36 hourly.length ∧
        (∀ j : ℕ, j < 8 → ∃ h, hourly[i + j]? = some h ∧
          convertMphToBft h.wind_speed < 3) ∧
        ∃ h0, hourly[i]? = some h0 ∧ r = h0.dt ∧
          8 ≤ dateGetHours ((h0.dt + tz) * 1000) ∧
          dateGetHours ((h0.dt + tz) * 1000) < 21) ∧
    (∀ r : ℤ, findCalm tz hourly = some r →
      dateGetHours ((r + tz) * 1000) ≠ 22) ∧
    (∀ l : List HourData, l.length = 9 →
      (∀ h ∈ l, convertMphToBft h.wind_speed < 3) →
      (∀ h0, l.head? = some h0 →
        ¬(8 ≤ dateGetHours ((h0.dt + tz) * 1000) ∧
          dateGetHours ((h0.dt + tz) * 1000) < 21)) →
      findCalm tz l = none) ∧
    ((¬ ∃ i : ℕ, i + 8 ≤ min 36 hourly.length ∧
        (∀ j : ℕ, j < 8 → ∃ h, hourly[i + j]? = some h ∧
          convertMphToBft h.wind_speed < 3) ∧
        ∃ h0, hourly[i]? = some h0 ∧
          8 ≤ dateGetHours ((h0.dt + tz) * 1000) ∧
          dateGetHours ((h0.dt + tz) * 1000) < 21) →
      findCalm tz hourly = none) := by
  refine ⟨?_, findCalm_sound tz hourly, ?_, calmLoop_reset_nine tz, ?_⟩
  · intro l2 hl
    rw [findCalm_eq_take36, findCalm_eq_take36, hl]
  · intro r hr
    obtain ⟨i, hle, hall, h0, hh0, hrdt, hw1, hw2⟩ := findCalm_sound tz hourly r hr
    subst hrdt
    omega
  · intro hno
    cases hfc : findCalm tz hourly with
    | none => rfl
    | some r =>
      exfalso
      obtain ⟨i, hle, hall, h0, hh0, hrdt, hw1, hw2⟩ := findCalm_sound tz hourly r hfc
      exact hno ⟨i, hle, hall, h0, hh0, hw1, hw2⟩

/-- C1 witness: the reset clause applied to the concrete 9-calm-hours
forecast starting at local hour 22 — the finder reports nothing. -/
theorem calmFinder_spec_witness : findCalm 0 sampleCalmNine = none :=
  (calmFinder_spec 0 sampleCalmNine).2.2.2.1 sampleCalmNine rfl (by decide)
    (by
      intro h0 hh
      injection hh with h
      subst h
      decide)

/-- C10: the calm scan begins at hourly index 0 (the entry that duplicates
the current observation, which the chart builder skips): whenever the first
8 entries all have wind-force class < 3 and the local hour of the first entry is
in `[8, 21)`, the finder reports `hourly[0].dt`. -/
theorem calmScanIndexZero_spec (tz : ℤ) (hourly : List HourData)
    (h8 : 8 ≤ hourly.length)
    (hcalm : ∀ j : ℕ, j < 8 → ∀ h, hourly[j]? = some h →
      convertMphToBft h.wind_speed < 3)
    (a : HourData) (ha : hourly.head? = some a)
    (hw1 : 8 ≤ dateGetHours ((a.dt + tz) * 1000))
    (hw2 : dateGetHours ((a.dt + tz) * 1000) < 21) :
    findCalm tz hourly = some a.dt := by
  rw [findCalm_eq_take36]
  refine calmLoop_head_success tz (hourly.take 36) ?_ ?_ a ?_ hw1 hw2
  · rw [List.length_take]
    omega
  · intro j hj h hh
    apply hcalm j hj h
    rw [List.getElem?_take, if_pos (by omega)] at hh
    exact hh
  · rw [List.head?_eq_getElem?, List.getElem?_take, if_pos (by omega),
      ← List.head?_eq_getElem?]
    exact ha

/-- C10 witness: the theorem applied to the concrete 8-calm-hours forecast
starting at local hour 10 — the finder reports the `dt` of the first entry. -/
theorem calmScanIndexZero_spec_witness : findCalm 0 sampleCalmEight = some 36000 :=
  calmScanIndexZero_spec 0 sampleCalmEight (by decide)
    (by
      intro j hj h hh
      interval_cases j <;>
        (simp [sampleCalmEight] at hh; subst hh; decide))
    ⟨36000, 80, 2⟩ (by decide) (by decide) (by decide)

/-- The forecast slice has `min 3 (len - 1)` entries. -/
theorem forecastSlice_length (hourly : List HourData) :
    (forecastSlice hourly).length = min 3 (hourly.length - 1) := by
  simp [forecastSlice]

/-- Truncating an instant inside an hour-aligned hour yields that hour. -/
theorem trunc_current (a c tz : ℤ) (hal : (a + tz) % 3600 = 0)
    (h1 : a ≤ c) (h2 : c < a + 3600) :
    setMinutesZero ((c + tz) * 1000) = (a + tz) * 1000 := by
  unfold setMinutesZero
  omega

/-- C2: with hour-aligned, strictly ascending forecast hours and the current
observation inside the first forecast hour, each chart series has
`1 + min 3 (hourly.length - 1)` points (so exactly 4 when at least 3
forecast hours follow index 0); all three series carry the same timestamps,
strictly ascending; the point at index `k+1` (for `k < 3`) carries the
untruncated timestamp `(hourly[k+1].dt + timezone_offset) * 1000`; and the
timestamp of the first point is the current instant truncated to the start of
its hour, with zero minutes, seconds and milliseconds. -/
theorem chartSeries_spec (data : WeatherData)
    (hchain : List.Chain' (fun a b => a.dt < b.dt) data.hourly)
    (halign : ∀ h ∈ data.hourly, (h.dt + data.timezone_offset) % 3600 = 0)
    (hcur : ∀ h0, data.hourly.head? = some h0 →
      h0.dt ≤ data.current.dt ∧ data.current.dt < h0.dt + 3600) :
    ((overallData data).length = 1 + min 3 (data.hourly.length - 1) ∧
      (windData data).length = 1 + min 3 (data.hourly.length - 1) ∧
      (tempData data).length = 1 + min 3 (data.hourly.length - 1)) ∧
    (4 ≤ data.hourly.length →
      (overallData data).length = 4 ∧ (windData data).length = 4 ∧
        (tempData data).length = 4) ∧
    ((windData data).map Prod.fst = (overallData data).map Prod.fst ∧
      (tempData data).map Prod.fst = (overallData data).map Prod.fst) ∧
    List.Chain' (fun a b => a < b) ((overallData data).map Prod.fst) ∧
    (∀ k : ℕ, k < 3 → ∀ h, data.hourly[k + 1]? = some h →
      ((overallData data).map Prod.fst)[k + 1]? =
        some ((h.dt + data.timezone_offset) * 1000)) ∧
    (∀ t : ℤ, ((overallData data).map Prod.fst).head? = some t →
      t = setMinutesZero ((data.current.dt + data.timezone_offset) * 1000) ∧
      t % 3600000 = 0 ∧ dateGetMinutes t = 0) := by
  obtain ⟨cur, hourly, tz⟩ := data
  refine ⟨?_, ?_, ?_, ?_, ?_, ?_⟩
  · refine ⟨?_, ?_, ?_⟩ <;>
      simp only [overallData, windData, tempData, List.length_cons,
        List.length_map, forecastSlice_length] <;> omega
  · intro h4
    have h4b : 4 ≤ hourly.length := h4
    refine ⟨?_, ?_, ?_⟩ <;>
      simp only [overallData, windData, tempData, List.length_cons,
        List.length_map, forecastSlice_length] <;> omega
  · constructor <;> simp [overallData, windData, tempData, List.map_map, Function.comp]
  · rcases hourly with _ | ⟨a, _ | ⟨b, _ | ⟨b2, _ | ⟨b3, rest⟩⟩⟩⟩
    · simp [overallData, forecastSlice]
    · simp [overallData, forecastSlice]
    · have ha := halign a (by simp)
      have hca := hcur a rfl
      have ht0 := trunc_current a.dt cur.dt tz ha hca.1 hca.2
      simp only [List.chain'_cons, List.chain'_singleton, and_true] at hchain
      simp only [overallData, forecastSlice] at *
      simp only [List.drop_succ_cons, List.drop_zero]
      simp [ht0, List.chain'_cons]
      omega
    · have ha := halign a (by simp)
      have hca := hcur a rfl
      have ht0 := trunc_current a.dt cur.dt tz ha hca.1 hca.2
      simp only [List.chain'_cons, List.chain'_singleton, and_true] at hchain
      simp only [overallData, forecastSlice] at *
      simp only [List.drop_succ_cons, List.drop_zero]
      simp [ht0, List.chain'_cons]
      omega
    · have ha := halign a (by simp)
      have hca := hcur a rfl
      have ht0 := trunc_current a.dt cur.dt tz ha hca.1 hca.2
      simp only [List.chain'_cons] at hchain
      simp only [overallData, forecastSlice] at *
      simp only [List.drop_succ_cons, List.drop_zero]
      simp [ht0, List.chain'_cons]
      omega
  · intro k hk h hh
    simp only [overallData, List.map_cons, List.map_map, List.getElem?_cons_succ]
    rw [List.getElem?_map]
    have hsl : (forecastSlice hourly)[k]? = some h := by
      simp only [forecastSlice]
      rw [List.getElem?_take, if_pos hk, List.getElem?_drop]
      rwa [Nat.add_comm]
    rw [hsl]
    rfl
  · intro t ht
    simp only [overallData, List.map_cons, List.head?_cons] at ht
    injection ht with ht
    subst ht
    refine ⟨rfl, ?_, ?_⟩
    · unfold setMinutesZero
      omega
    · unfold dateGetMinutes setMinutesZero
      omega

/-- C2 witness: the theorem applied at the concrete sample payload, whose
three forecast hours beyond index 0 give series of exactly 4 points. -/
theorem chartSeries_spec_witness : (overallData sampleData).length = 4 :=
  ((chartSeries_spec sampleData
    (by norm_num [sampleData, List.chain'_cons]) (by decide)
    (by
      intro h0 hh
      injection hh with h
      subst h
      decide)).2.1 (by decide)).1
